import Mathlib

/-!
Verification of the traffic-capture and conversation-persistence pipeline
of the mcp-mitm-mem0 repository.

The definitions below are a shallow embedding of the Python source:
`memory_addon.py` (the mitmproxy addon: SSE reconstruction, dedup,
turn building, reflection scheduling) and
`mcp_mitm_mem0/memory_service.py` (the Mem0 persistence wrapper).

Python values flowing through the pipeline are modelled by a small JSON
datatype; fallible Python operations (attribute errors, type errors,
decode errors) are modelled in the `Except String` monad, where the
string is the kind of exception raised.
-/

/-- JSON values as produced by `json.loads`, used to model request and
response payloads and all dict-shaped Python values in the pipeline. -/
inductive Json where
  | null : Json
  | bool : Bool → Json
  | num : Int → Json
  | str : String → Json
  | arr : List Json → Json
  | obj : List (String × Json) → Json

/-- Python `x == "lit"` for a string literal: true exactly when `x` is a
string with that content (comparison with a non-string is `False`). -/
def jStrEq (j : Json) (s : String) : Bool :=
  match j with
  | .str t => t = s
  | _ => false

/-- Python truthiness (`bool(x)`) on JSON values. -/
def truthy : Json → Bool
  | .null => false
  | .bool b => b
  | .num n => n != 0
  | .str s => s ≠ ""
  | .arr xs => ¬ xs.isEmpty
  | .obj fs => ¬ fs.isEmpty

/-- First-match association lookup on object fields (Python dicts have
unique keys, so first match is the dict lookup). -/
def lookupField : List (String × Json) → String → Option Json
  | [], _ => none
  | (k, v) :: rest, key => if k = key then some v else lookupField rest key

/-- `d.get(k, default)`: returns the default when the key is absent and
raises `AttributeError` when the receiver is not a dict. -/
def pyGetD (j : Json) (k : String) (dflt : Json) : Except String Json :=
  match j with
  | .obj fs =>
    match lookupField fs k with
    | some v => .ok v
    | none => .ok dflt
  | _ => .error "AttributeError"

/-- `d.get(k)` (single-argument form, default `None`). -/
def pyGet1 (j : Json) (k : String) : Except String Json :=
  pyGetD j k Json.null

/-- `k in x` membership test (keys of a dict, elements of a list,
substring of a string; `TypeError` otherwise). -/
def pyHasKey (j : Json) (k : String) : Except String Bool :=
  match j with
  | .obj fs => .ok ((lookupField fs k).isSome)
  | .arr xs => .ok (xs.any (fun x => jStrEq x k))
  | .str _ => .error "TypeError"
  | _ => .error "TypeError"

/-- `x[k]` subscript with a string key (`KeyError` when missing,
`TypeError` when the receiver is not a dict). -/
def pyGetItem (j : Json) (k : String) : Except String Json :=
  match j with
  | .obj fs =>
    match lookupField fs k with
    | some v => .ok v
    | none => .error "KeyError"
  | _ => .error "TypeError"

/-- `x[i]` subscript with an integer index on sequences. -/
def pyIndex (j : Json) (i : Nat) : Except String Json :=
  match j with
  | .arr xs =>
    match xs.get? i with
    | some v => .ok v
    | none => .error "IndexError"
  | .str s =>
    if h : i < s.length then .ok (.str (String.mk [s.data.get ⟨i, by simpa using h⟩]))
    else .error "IndexError"
  | _ => .error "TypeError"

/-- Coercion used where Python requires an actual `str`
(string concatenation, `str.startswith`); `TypeError` otherwise. -/
def asString (j : Json) : Except String String :=
  match j with
  | .str s => .ok s
  | _ => .error "TypeError"

/-- `x[:n]` slicing on strings and lists. -/
def pySlice (j : Json) (n : Nat) : Except String Json :=
  match j with
  | .str s => .ok (.str (String.mk (s.data.take n)))
  | .arr xs => .ok (.arr (xs.take n))
  | _ => .error "TypeError"

mutual

/-- Python `repr` of a JSON value (element rendering inside containers). -/
def pyRepr : Json → String
  | .null => "None"
  | .bool b => if b then "True" else "False"
  | .num n => toString n
  | .str s => "\x27" ++ s ++ "\x27"
  | .arr xs => "[" ++ pyReprList xs ++ "]"
  | .obj fs => "\x7b" ++ pyReprFields fs ++ "\x7d"

def pyReprList : List Json → String
  | [] => ""
  | [x] => pyRepr x
  | x :: xs => pyRepr x ++ ", " ++ pyReprList xs

def pyReprFields : List (String × Json) → String
  | [] => ""
  | [(k, v)] => "\x27" ++ k ++ "\x27: " ++ pyRepr v
  | (k, v) :: fs => "\x27" ++ k ++ "\x27: " ++ pyRepr v ++ ", " ++ pyReprFields fs

end

/-- Python `str()` as used by f-string interpolation. -/
def pyStr (j : Json) : String :=
  match j with
  | .str s => s
  | _ => pyRepr j

/-- Auxiliary scan for substring containment over character lists. -/
def containsSubAux (needle : List Char) : List Char → Bool
  | [] => needle.isEmpty
  | c :: rest => needle.isPrefixOf (c :: rest) || containsSubAux needle rest

/-- Substring containment, Python `needle in hay` on strings. -/
def containsSub (needle hay : String) : Bool :=
  containsSubAux needle.toList hay.toList

/-- Python `s.startswith(pre)`. -/
def strStartsWith (s pre : String) : Bool :=
  pre.toList.isPrefixOf s.toList

example : truthy (Json.obj []) = false := by decide
example : containsSub "api.anthropic.com" "api.anthropic.com:443" = true := by decide
example : containsSub "api.anthropic.com" "example.com" = false := by decide
example : pyStr (Json.str "m1") = "m1" := rfl

/-!
## Stream Reconstructor: `parse_sse_response` (memory_addon.py lines 46-114)
-/

/-- One line of the decoded SSE body after `content_str.strip().split("\n")`:
either a line starting with `data: ` (carrying the result of
`json.loads(line[6:])`, `none` when that raises `JSONDecodeError`),
or any other line. -/
inductive SseLine where
  | data : Option Json → SseLine
  | other : SseLine

/-- A raw byte payload, viewed through the operations the addon applies to
it: emptiness (`if not content`), UTF-8 decoding plus line splitting
(`none` when decoding raises), and `json.loads` of the whole body
(`none` when that raises). Byte-identical payloads yield identical views. -/
structure RawBytes where
  isEmpty : Bool
  decoded : Option (List SseLine)
  jsonParse : Option Json

/-- Mutable locals of the `parse_sse_response` loop: the assembled
`response_data` fields plus `current_content_block` / `current_text`. -/
structure SseState where
  content : List Json
  model : Json
  usage : Json
  ident : Option Json
  currentBlock : Option Json
  currentText : String

/-- Initial `response_data` / loop state (memory_addon.py lines 63-66). -/
def initSseState : SseState :=
  { content := [], model := .str "", usage := .obj [], ident := none,
    currentBlock := none, currentText := "" }

/-- The guard of the `content_block_stop` arm (memory_addon.py lines
95-98): the accumulated text is kept only when a truthy content block is
open and its declared type is `text`. -/
def stopKeep (currentBlock : Option Json) : Except String Bool :=
  match currentBlock with
  | none => .ok false
  | some cb =>
    if truthy cb then
      match pyGet1 cb "type" with
      | .error e => .error e
      | .ok cbTy => .ok (jStrEq cbTy "text")
    else
      .ok false

/-- Handling of one parsed `data:` event (memory_addon.py lines 72-104).
Exceptions other than the per-event `json.JSONDecodeError`/`KeyError`
(e.g. `AttributeError` from `.get` on a non-dict, `TypeError` from `+=`
of a non-string) propagate to the outer handler. -/
def processEvent (j : Json) (st : SseState) : Except String SseState :=
  match pyGetD j "type" (.str "") with
  | .error e => .error e
  | .ok ty =>
    if jStrEq ty "message_start" then
      match pyGetD j "message" (.obj []) with
      | .error e => .error e
      | .ok message =>
        match pyGetD message "model" (.str "") with
        | .error e => .error e
        | .ok model =>
          match pyGetD message "id" (.str "") with
          | .error e => .error e
          | .ok ident =>
            match pyGetD message "usage" (.obj []) with
            | .error e => .error e
            | .ok usage =>
              .ok { st with model := model, ident := some ident, usage := usage }
    else if jStrEq ty "content_block_start" then
      match pyGetD j "content_block" (.obj []) with
      | .error e => .error e
      | .ok cb =>
        match pyGet1 cb "type" with
        | .error e => .error e
        | .ok cbTy =>
          if jStrEq cbTy "text" then
            .ok { st with currentBlock := some cb, currentText := "" }
          else
            .ok { st with currentBlock := some cb }
    else if jStrEq ty "content_block_delta" then
      match pyGetD j "delta" (.obj []) with
      | .error e => .error e
      | .ok delta =>
        match pyGet1 delta "type" with
        | .error e => .error e
        | .ok dTy =>
          if jStrEq dTy "text_delta" then
            match pyGetD delta "text" (.str "") with
            | .error e => .error e
            | .ok t =>
              match asString t with
              | .error e => .error e
              | .ok ts => .ok { st with currentText := st.currentText ++ ts }
          else
            .ok st
    else if jStrEq ty "content_block_stop" then
      match stopKeep st.currentBlock with
      | .error e => .error e
      | .ok keep =>
        .ok { st with
              content :=
                if keep then
                  st.content ++
                    [Json.obj [("type", .str "text"), ("text", .str st.currentText)]]
                else
                  st.content,
              currentBlock := none, currentText := "" }
    else
      .ok st

/-- The per-line loop of `parse_sse_response` (memory_addon.py lines 68-108):
non-`data:` lines are skipped, lines whose JSON fails to parse are skipped
by the inner `except`, all other exceptions abort the loop. -/
def runSse (st : SseState) : List SseLine → Except String SseState
  | [] => .ok st
  | .other :: rest => runSse st rest
  | .data none :: rest => runSse st rest
  | .data (some j) :: rest =>
    match processEvent j st with
    | .error e => .error e
    | .ok st2 => runSse st2 rest

/-- The fields of the `response_data` dict other than `content`. -/
def sseTailFields (st : SseState) : List (String × Json) :=
  [("model", st.model), ("usage", st.usage), ("type", .str "message")] ++
  (match st.ident with
   | none => []
   | some v => [("id", v)])

/-- Serialization of the loop state back into the `response_data` dict. -/
def sseToJson (st : SseState) : Json :=
  .obj (("content", .arr st.content) :: sseTailFields st)

/-- `parse_sse_response` (memory_addon.py lines 46-114): empty content,
decode failures and any exception escaping the loop produce `\x7b\x7d`. -/
def parse_sse_response (content : RawBytes) : Json :=
  if content.isEmpty then Json.obj []
  else
    match content.decoded with
    | none => Json.obj []
    | some lines =>
      match runSse initSseState lines with
      | .error _ => Json.obj []
      | .ok st => sseToJson st

/-!
## Persistence Client: `MemoryService.add_memory`
(mcp_mitm_mem0/memory_service.py lines 43-123)
-/

/-- Relevant fields of the application settings (`config.py`). -/
structure Settings where
  defaultUserId : String
  defaultAgentId : String
  memoryCategories : Json

/-- The keyword arguments assembled into `add_params`
(memory_service.py lines 70-84). -/
structure AddParams where
  messages : List Json
  user_id : String
  agent_id : String
  version : String
  run_id : Option String
  custom_categories : Option Json
  output_format : Option String
  metadata : Option Json

/-- Python `x or default` for an optional string argument: `None` and the
empty (falsy) string both fall back to the default. -/
def orDefault (x : Option String) (dflt : String) : String :=
  match x with
  | some s => if s = "" then dflt else s
  | none => dflt

/-- Python `x or default` for an optional JSON argument. -/
def orDefaultJson (x : Option Json) (dflt : Json) : Json :=
  match x with
  | some v => if truthy v then v else dflt
  | none => dflt

/-- Assembly of `add_params` (memory_service.py lines 65-84): defaults are
substituted for falsy arguments, and `run_id` / `custom_categories` (with
`output_format`) / `metadata` are attached only when truthy. -/
def buildAddParams (settings : Settings) (messages : List Json)
    (user_id agent_id run_id : Option String)
    (categories metadata : Option Json) : AddParams :=
  let uid := orDefault user_id settings.defaultUserId
  let aid := orDefault agent_id settings.defaultAgentId
  let cats := orDefaultJson categories settings.memoryCategories
  { messages := messages
    user_id := uid
    agent_id := aid
    version := "v2"
    run_id := match run_id with
      | some r => if r = "" then none else some r
      | none => none
    custom_categories := if truthy cats then some cats else none
    output_format := if truthy cats then some "v1.1" else none
    metadata := match metadata with
      | some m => if truthy m then some m else none
      | none => none }

namespace MemoryService

/-- `MemoryService.add_memory` (memory_service.py lines 43-123).

`remote` gives the outcome the Mem0 client `add` call would produce on its
k-th invocation (0-based) with the given parameters; the second component
of the result is the number of remote invocations performed.  The source
awaits `self.async_client.add(**add_params)` exactly once: on success it
reads `result.get("id")` for logging and returns the result; on failure it
logs and re-raises the original exception unchanged. -/
def add_memory (remote : Nat → AddParams → Except String Json)
    (settings : Settings) (messages : List Json)
    (user_id agent_id run_id : Option String)
    (categories metadata : Option Json) : Except String Json × Nat :=
  let add_params :=
    buildAddParams settings messages user_id agent_id run_id categories metadata
  match remote 0 add_params with
  | .error e => (.error e, 1)
  | .ok result =>
    match pyGet1 result "id" with
    | .error e => (.error e, 1)
    | .ok _ => (.ok result, 1)

end MemoryService

/-!
## Memory addon: constants, Turn Builder and dedup/reflection state
(memory_addon.py lines 41-43 and 117-364)
-/

/-- `RECENT_MESSAGES_LIMIT` (memory_addon.py line 42). -/
def RECENT_MESSAGES_LIMIT : Nat := 5

/-- `REFLECTION_MESSAGE_THRESHOLD` (memory_addon.py line 43). -/
def REFLECTION_MESSAGE_THRESHOLD : Nat := 5

/-- The reversed-iteration search for the last message with role `user`
(memory_addon.py lines 245-249); `.get("role")` on a non-dict entry
raises before the loop can continue. -/
def findLastUserAux : List Json → Except String (Option Json)
  | [] => .ok none
  | m :: rest => do
    let role ← pyGet1 m "role"
    if jStrEq role "user" then
      return some m
    else
      findLastUserAux rest

/-- `for msg in reversed(request_data["messages"])` with the `break` on the
first user message. -/
def findLastUser (msgs : List Json) : Except String (Option Json) :=
  findLastUserAux msgs.reverse

/-- The block scan of a list-valued user content (memory_addon.py lines
256-262): text blocks contribute `block.get("text", "")`, tool results
contribute `block.get("content", "")`, non-dict blocks are skipped. -/
def collectUserParts : List Json → Except String (List Json)
  | [] => .ok []
  | b :: rest => do
    match b with
    | .obj _ => do
      let ty ← pyGet1 b "type"
      if jStrEq ty "text" then
        let t ← pyGetD b "text" (.str "")
        let r ← collectUserParts rest
        return (t :: r)
      else if jStrEq ty "tool_result" then
        let c ← pyGetD b "content" (.str "")
        let r ← collectUserParts rest
        return (c :: r)
      else
        collectUserParts rest
    | _ => collectUserParts rest

/-- `" ".join(parts)`: every part must be a string, else `TypeError`. -/
def joinParts : List Json → Except String String
  | [] => .ok ""
  | [p] => asString p
  | p :: rest => do
    let s ← asString p
    let r ← joinParts rest
    return (s ++ " " ++ r)

/-- Normalization of a user content value (memory_addon.py lines 253-263):
a list is flattened to the joined text of its text-bearing blocks, any
other value is kept as-is. -/
def normalizeUserContent (content : Json) : Except String Json :=
  match content with
  | .arr blocks => do
    let parts ← collectUserParts blocks
    let s ← joinParts parts
    return .str s
  | c => .ok c

/-- The user side of the turn (memory_addon.py lines 244-269): the last
user message of the request, with content normalized; appended only when
the final content value is truthy. -/
def userMessages (req : Json) : Except String (List Json) := do
  let hasMsgs ← pyHasKey req "messages"
  if ¬ hasMsgs then
    return []
  else
    let msgsJ ← pyGetItem req "messages"
    if ¬ truthy msgsJ then
      return []
    else
      match msgsJ with
      | .arr xs => do
        let lastUser ← findLastUser xs
        match lastUser with
        | none => return []
        | some m => do
          let content ← pyGetD m "content" (.str "")
          let content2 ← normalizeUserContent content
          if truthy content2 then
            return [Json.obj [("role", .str "user"), ("content", content2)]]
          else
            return []
      | _ => .error "TypeError"

/-- The comprehension over response content blocks (memory_addon.py lines
272-276): collects `block.get("text", "")` of the blocks whose type is
`text`; joining raises `TypeError` on a non-string text value and
`.get` raises `AttributeError` on a non-dict block. -/
def assistantTexts : List Json → Except String (List String)
  | [] => .ok []
  | b :: rest => do
    let ty ← pyGet1 b "type"
    if jStrEq ty "text" then
      let t ← pyGetD b "text" (.str "")
      let ts ← asString t
      let r ← assistantTexts rest
      return (ts :: r)
    else
      assistantTexts rest

/-- The assistant side of the turn (memory_addon.py lines 271-282):
the space-joined text blocks of the response content, appended only when
non-empty. -/
def assistantMessages (rd : Json) : Except String (List Json) :=
  match pyHasKey rd "content" with
  | .error e => .error e
  | .ok hasContent =>
    if ¬ hasContent then .ok []
    else
      match pyGetItem rd "content" with
      | .error e => .error e
      | .ok c =>
        if ¬ truthy c then .ok []
        else
          match c with
          | .arr blocks =>
            (match assistantTexts blocks with
             | .error e => .error e
             | .ok texts =>
               if String.intercalate " " texts ≠ "" then
                 .ok [Json.obj [("role", .str "assistant"),
                                ("content", .str (String.intercalate " " texts))]]
               else
                 .ok [])
          | _ => .error "TypeError"

/-- The `messages` list built for one turn (memory_addon.py lines 241-282):
the user entry (if any) followed by the assistant entry (if any). -/
def buildMessages (req rd : Json) : Except String (List Json) :=
  match userMessages req with
  | .error e => .error e
  | .ok u =>
    match assistantMessages rd with
    | .error e => .error e
    | .ok a => .ok (u ++ a)

/-!
## Memory addon: hooks (memory_addon.py lines 117-364)
-/

/-- Ambient inputs of one hook invocation: the settings, the wall-clock
timestamp `datetime.now().isoformat()` and the truncated SHA-256 hex
digest `hashlib.sha256(s.encode()).hexdigest()[:12]` used for `run_id`. -/
structure Env where
  settings : Settings
  nowIso : String
  sha256hex12 : String → String

/-- The per-flow `flow.metadata` entries used by the addon. -/
structure FlowMeta where
  claudeRequest : Option Json
  processedConvId : Option String

/-- Addon-level mutable state together with the per-flow metadata and the
externally observable effect trace of the run: `stored` records each
`memory_service.add_memory` invocation (its `messages` argument),
`dispatched` records each background reflection snapshot, `remoteQueue`
scripts the outcomes of successive remote Mem0 `add` calls and
`remoteCalls` counts how many have been consumed. -/
structure PyState where
  meta : FlowMeta
  msgCount : Nat
  recent : List Json
  stored : List (List Json)
  dispatched : List (List Json)
  remoteQueue : List (Except String Json)
  remoteCalls : Nat

/-- The view of one HTTP flow at response time. -/
structure ResponseInput where
  prettyHost : String
  path : String
  contentType : String
  content : RawBytes

/-- The view of one HTTP flow at request time. -/
structure RequestInput where
  prettyHost : String
  path : String
  content : RawBytes

/-- The streaming completeness gate (memory_addon.py lines 214-217):
`not response_data.get("content") or not
response_data.get("content", [\x7b\x7d])[0].get("text")`; the result is
`true` when processing may proceed. -/
def streamGate (rd : Json) : Except String Bool :=
  match pyGet1 rd "content" with
  | .error e => .error e
  | .ok c =>
    if ¬ truthy c then .ok false
    else
      match pyGetD rd "content" (.arr [.obj []]) with
      | .error e => .error e
      | .ok c2 =>
        match pyIndex c2 0 with
        | .error e => .error e
        | .ok first =>
          match pyGet1 first "text" with
          | .error e => .error e
          | .ok t => .ok (truthy t)

/-- Lines 206-222: obtain `response_data` from the flow, returning
`none` for the silent early returns (incomplete stream, falsy payload)
and an error when parsing the non-streaming body raises. -/
def getResponseData (fl : ResponseInput) : Except String (Option Json) :=
  if containsSub "text/event-stream" fl.contentType then
    let rd := parse_sse_response fl.content
    match streamGate rd with
    | .error e => .error e
    | .ok false => .ok none
    | .ok true => .ok (if truthy rd then some rd else none)
  else
    match fl.content.jsonParse with
    | none => .error "JSONDecodeError"
    | some rd => .ok (if truthy rd then some rd else none)

/-- The deduplication key (memory_addon.py line 225):
`f"\x7brequest_data.get('model', 'unknown')\x7d_\x7bresponse_data.get('id', 'unknown')\x7d"`. -/
def convIdOf (req rd : Json) : Except String String :=
  match pyGetD req "model" (.str "unknown") with
  | .error e => .error e
  | .ok m =>
    match pyGetD rd "id" (.str "unknown") with
    | .error e => .error e
    | .ok i => .ok (pyStr m ++ "_" ++ pyStr i)

/-- Line 237: `model = response_data.get("model", "")`, which must be a
string for the subsequent `startswith` call. -/
def modelStrOf (rd : Json) : Except String String :=
  match pyGetD rd "model" (.str "") with
  | .error e => .error e
  | .ok m => asString m

/-- The `metadata` dict attached to the stored turn
(memory_addon.py lines 293-298). -/
def metadataOf (rd : Json) (runId : String) : Except String Json :=
  match pyGetD rd "model" (.str "unknown") with
  | .error e => .error e
  | .ok m =>
    match pyGetD rd "created" (.str "") with
    | .error e => .error e
    | .ok ts =>
      .ok (.obj [("source", .str "mitm_proxy"), ("model", m),
                 ("timestamp", ts), ("session_id", .str runId)])

/-- The `session_content` accumulation loop (memory_addon.py lines
288-289): each message appends `_` plus the first 50 characters of its
content, via f-string interpolation. -/
def sessionContentFold (acc : String) : List Json → Except String String
  | [] => .ok acc
  | m :: rest => do
    let c ← pyGetD m "content" (.str "")
    let sl ← pySlice c 50
    sessionContentFold (acc ++ "_" ++ pyStr sl) rest

/-- `run_id` derivation (memory_addon.py lines 285-291). -/
def sessionRunId (env : Env) (msgs : List Json) : Except String String := do
  let base := env.settings.defaultUserId ++ "_" ++ env.nowIso
  let s ← sessionContentFold base msgs
  return env.sha256hex12 s

/-- The `memory_service.add_memory(...)` call made by the addon
(memory_addon.py lines 300-308): the remote outcomes are scripted by the
state's queue, the invocation is recorded in `stored`, and the consumed
remote call count is advanced. -/
def callAdd (env : Env) (s : PyState) (msgs : List Json) (runId : String)
    (metadata : Json) : PyState × Except String Json :=
  let remote := fun k (_ : AddParams) =>
    (s.remoteQueue.getD (s.remoteCalls + k) (.ok (Json.obj [("id", .str "")])))
  let r := MemoryService.add_memory remote env.settings msgs
    (some env.settings.defaultUserId) (some env.settings.defaultAgentId)
    (some runId) (some env.settings.memoryCategories) (some metadata)
  ({ s with stored := s.stored ++ [msgs], remoteCalls := s.remoteCalls + r.2 }, r.1)

/-- The rolling-window / counter fields of the addon. -/
structure SchedState where
  recent : List Json
  count : Nat

/-- `deque(maxlen=RECENT_MESSAGES_LIMIT).extend`: keep the most recent
`RECENT_MESSAGES_LIMIT` entries. -/
def takeLast (n : Nat) (xs : List Json) : List Json :=
  xs.drop (xs.length - n)

/-- One execution of the reflection bookkeeping (memory_addon.py lines
333-355) for one persisted turn: extend the window, add the turn's
message count, and when the threshold is reached dispatch one background
task and reset the counter; the boolean reports whether a dispatch
occurred. -/
def reflectStep (st : SchedState) (msgs : List Json) : SchedState × Bool :=
  let recent := takeLast RECENT_MESSAGES_LIMIT (st.recent ++ msgs)
  let count := st.count + msgs.length
  if REFLECTION_MESSAGE_THRESHOLD ≤ count then
    ({ recent := recent, count := 0 }, true)
  else
    ({ recent := recent, count := count }, false)

/-- Iterated reflection bookkeeping over a sequence of persisted turns,
counting the dispatched background tasks. -/
def runTurns (st : SchedState) : List (List Json) → SchedState × Nat
  | [] => (st, 0)
  | t :: ts =>
    ((runTurns (reflectStep st t).1 ts).1,
     (if (reflectStep st t).2 then 1 else 0) + (runTurns (reflectStep st t).1 ts).2)

/-- Application of `reflectStep` to the addon state, recording the
snapshot handed to the background task on dispatch. -/
def updateReflection (s : PyState) (msgs : List Json) : PyState :=
  let r := reflectStep { recent := s.recent, count := s.msgCount } msgs
  { s with recent := r.1.recent, msgCount := r.1.count,
           dispatched := s.dispatched ++ (if r.2 then [r.1.recent] else []) }

/-- The marker write `flow.metadata["processed_conv_id"] = conv_id`
(memory_addon.py line 228). -/
def setMarker (s : PyState) (cid : String) : PyState :=
  { s with meta := { s.meta with processedConvId := some cid } }

@[simp] lemma setMarker_stored (s : PyState) (cid : String) :
    (setMarker s cid).stored = s.stored := rfl

@[simp] lemma setMarker_claudeRequest (s : PyState) (cid : String) :
    (setMarker s cid).meta.claudeRequest = s.meta.claudeRequest := rfl

@[simp] lemma setMarker_processedConvId (s : PyState) (cid : String) :
    (setMarker s cid).meta.processedConvId = some cid := rfl

/-- The dedup comparison `flow.metadata.get("processed_conv_id") ==
conv_id` (memory_addon.py line 226): a missing marker (`None`) never
equals the string key. -/
def markerMatches (marker : Option String) (cid : String) : Bool :=
  match marker with
  | some m => m = cid
  | none => false

/-- The processing of a complete `response_data` (memory_addon.py lines
224-361): dedup check and marker write, model exclusion, turn building,
persistence and reflection bookkeeping.  The second component is `ok` for
a normal return and an error for an exception propagating to the
enclosing handler; the first component is the state as mutated up to that
point. -/
def responseCore (env : Env) (s : PyState) (req rd : Json) :
    PyState × Except String Unit :=
  match convIdOf req rd with
  | .error e => (s, .error e)
  | .ok cid =>
    if markerMatches s.meta.processedConvId cid then
      (s, .ok ())
    else
      match modelStrOf rd with
      | .error e => (setMarker s cid, .error e)
      | .ok model =>
        if strStartsWith model "claude-3-5-haiku-" then
          (setMarker s cid, .ok ())
        else
          match buildMessages req rd with
          | .error e => (setMarker s cid, .error e)
          | .ok msgs =>
            if msgs.isEmpty then
              (setMarker s cid, .ok ())
            else
              match sessionRunId env msgs with
              | .error e => (setMarker s cid, .error e)
              | .ok runId =>
                match metadataOf rd runId with
                | .error e => (setMarker s cid, .error e)
                | .ok md =>
                  match callAdd env (setMarker s cid) msgs runId md with
                  | (s2, .error e) => (s2, .error e)
                  | (s2, .ok result) =>
                    match pyGet1 result "id" with
                    | .error e => (s2, .error e)
                    | .ok _ => (updateReflection s2 msgs, .ok ())

/-- The body of the `try` block of `MemoryAddon.response`
(memory_addon.py lines 205-361). -/
def responseTry (env : Env) (s : PyState) (req : Json) (fl : ResponseInput) :
    PyState × Except String Unit :=
  match getResponseData fl with
  | .error e => (s, .error e)
  | .ok none => (s, .ok ())
  | .ok (some rd) => responseCore env s req rd

/-- `MemoryAddon.response` (memory_addon.py lines 192-364).  The result is
`Except`-valued so that an exception escaping to the mitmproxy host would
be observable; the outer `try`/`except` of the source converts every
exception raised by the body into a logged normal return. -/
def MemoryAddon.response (env : Env) (s : PyState) (fl : ResponseInput) :
    Except String PyState :=
  if ¬ containsSub "api.anthropic.com" fl.prettyHost then
    .ok s
  else
    match s.meta.claudeRequest with
    | none => .ok s
    | some req =>
      if ¬ strStartsWith fl.path "/v1/messages" then
        .ok s
      else
        .ok (responseTry env s req fl).1

/-- `MemoryAddon.request` (memory_addon.py lines 178-190): a parse failure
of the request body is caught and logged, leaving the metadata unchanged. -/
def MemoryAddon.request (s : PyState) (fl : RequestInput) :
    Except String PyState :=
  if ¬ containsSub "api.anthropic.com" fl.prettyHost then
    .ok s
  else
    if strStartsWith fl.path "/v1/messages" then
      match fl.content.jsonParse with
      | some j =>
        .ok { s with meta := { s.meta with claudeRequest := some j } }
      | none => .ok s
    else
      .ok s


/-!
## Concrete fixtures used by witnesses and counterexamples
-/

/-- A concrete environment: settings of `config.py` shape, a fixed clock
reading and a fixed digest function. -/
def envW : Env :=
  { settings := { defaultUserId := "u", defaultAgentId := "a",
                  memoryCategories := .arr [.obj [("name", .str "c")]] },
    nowIso := "2026-01-01T00:00:00", sha256hex12 := fun _ => "abcdef123456" }

/-- A concrete request body: one user message `Hello`. -/
def reqW : Json :=
  .obj [("model", .str "m1"),
        ("messages", .arr [.obj [("role", .str "user"), ("content", .str "Hello")]])]

/-- A concrete non-streaming response body. -/
def rdW : Json :=
  .obj [("content", .arr [.obj [("type", .str "text"), ("text", .str "Hi there")]]),
        ("model", .str "m1"), ("id", .str "r1")]

/-- A non-streaming response flow carrying `rdW`. -/
def flW : ResponseInput :=
  { prettyHost := "api.anthropic.com", path := "/v1/messages",
    contentType := "application/json",
    content := { isEmpty := false, decoded := none, jsonParse := some rdW } }

/-- Initial addon/flow state: request parsed and stashed, nothing
processed or stored yet, remote calls scripted to succeed. -/
def sW : PyState :=
  { meta := { claudeRequest := some reqW, processedConvId := none },
    msgCount := 0, recent := [], stored := [], dispatched := [],
    remoteQueue := [], remoteCalls := 0 }

/-- The state after a hook invocation (the hook never errors; the error
fallback is never reached). -/
def hookOut (env : Env) (s : PyState) (fl : ResponseInput) : PyState :=
  match MemoryAddon.response env s fl with
  | .ok t => t
  | .error _ => s

example : (hookOut envW sW flW).stored =
    [[Json.obj [("role", .str "user"), ("content", .str "Hello")],
      Json.obj [("role", .str "assistant"), ("content", .str "Hi there")]]] := rfl

example : (hookOut envW sW flW).meta.processedConvId = some "m1_r1" := rfl

/-!
## Structural lemmas about the response path
-/

lemma callAdd_fst_meta (env : Env) (s : PyState) (msgs : List Json)
    (rid : String) (md : Json) : (callAdd env s msgs rid md).1.meta = s.meta := rfl

lemma callAdd_fst_stored (env : Env) (s : PyState) (msgs : List Json)
    (rid : String) (md : Json) :
    (callAdd env s msgs rid md).1.stored = s.stored ++ [msgs] := rfl

lemma callAdd_metadata_irrel (env : Env) (s : PyState) (msgs : List Json)
    (rid : String) (md1 md2 : Json) :
    callAdd env s msgs rid md1 = callAdd env s msgs rid md2 := rfl

lemma updateReflection_meta (s : PyState) (msgs : List Json) :
    (updateReflection s msgs).meta = s.meta := rfl

lemma updateReflection_stored (s : PyState) (msgs : List Json) :
    (updateReflection s msgs).stored = s.stored := rfl

/-- Marker behaviour of one core run: when the dedup key matches the
stored marker, the state is returned unchanged with no effect. -/
lemma responseCore_skip (env : Env) (s : PyState) (req rd : Json)
    (cid : String) (hconv : convIdOf req rd = .ok cid)
    (hmark : markerMatches s.meta.processedConvId cid = true) :
    responseCore env s req rd = (s, .ok ()) := by
  unfold responseCore
  rw [hconv]
  simp [hmark]

/-- Marker behaviour of one core run: when the dedup key does not match,
the marker is set to the key, whatever happens afterwards. -/
lemma responseCore_sets_marker (env : Env) (s : PyState) (req rd : Json)
    (cid : String) (hconv : convIdOf req rd = .ok cid)
    (hmark : markerMatches s.meta.processedConvId cid = false) :
    (responseCore env s req rd).1.meta.processedConvId = some cid := by
  unfold responseCore
  rw [hconv]
  simp only [hmark, Bool.false_eq_true, if_false]
  split
  · rfl
  · split
    · rfl
    · split
      · rfl
      · split
        · rfl
        · split
          · rfl
          · split
            · rfl
            · split
              · rename_i s2 e heq
                have := congrArg (fun p => p.1.meta) heq
                simpa [callAdd_fst_meta] using (congrArg FlowMeta.processedConvId this).symm
              · rename_i s2 result heq
                split
                · have := congrArg (fun p => p.1.meta) heq
                  simpa [callAdd_fst_meta] using (congrArg FlowMeta.processedConvId this).symm
                · rename_i hid
                  have := congrArg (fun p => p.1.meta) heq
                  rw [updateReflection_meta]
                  simpa [callAdd_fst_meta] using (congrArg FlowMeta.processedConvId this).symm

/-- A core run on a dedup-key computation failure raises before mutating
anything. -/
lemma responseCore_convErr (env : Env) (s : PyState) (req rd : Json)
    (e : String) (hconv : convIdOf req rd = .error e) :
    responseCore env s req rd = (s, .error e) := by
  unfold responseCore
  rw [hconv]

/-- The core run never touches the stashed request payload. -/
lemma responseCore_claudeRequest (env : Env) (s : PyState) (req rd : Json) :
    (responseCore env s req rd).1.meta.claudeRequest = s.meta.claudeRequest := by
  unfold responseCore
  split
  · rfl
  · split
    · rfl
    · split
      · rfl
      · split
        · rfl
        · split
          · rfl
          · split
            · rfl
            · split
              · rfl
              · split
                · rfl
                · split
                  · rename_i s2 e heq
                    have := congrArg (fun p => p.1.meta.claudeRequest) heq
                    simpa using this.symm
                  · rename_i s2 result heq
                    split
                    · have := congrArg (fun p => p.1.meta.claudeRequest) heq
                      simpa using this.symm
                    · rw [updateReflection_meta]
                      have := congrArg (fun p => p.1.meta.claudeRequest) heq
                      simpa using this.symm

/-- One core run performs at most one persistence call, appended to the
effect trace. -/
lemma responseCore_stored_extend (env : Env) (s : PyState) (req rd : Json) :
    ∃ ext, (responseCore env s req rd).1.stored = s.stored ++ ext ∧
      ext.length ≤ 1 := by
  unfold responseCore
  split
  · exact ⟨[], by simp⟩
  · split
    · exact ⟨[], by simp⟩
    · split
      · exact ⟨[], by simp⟩
      · split
        · exact ⟨[], by simp⟩
        · split
          · exact ⟨[], by simp⟩
          · split
            · exact ⟨[], by simp⟩
            · split
              · exact ⟨[], by simp⟩
              · split
                · exact ⟨[], by simp⟩
                · split
                  · rename_i heq
                    have := congrArg (fun p => p.1.stored) heq
                    simp only [callAdd_fst_stored, setMarker_stored] at this
                    exact ⟨_, this.symm, by simp⟩
                  · rename_i heq
                    have := congrArg (fun p => p.1.stored) heq
                    simp only [callAdd_fst_stored, setMarker_stored] at this
                    split
                    · exact ⟨_, this.symm, by simp⟩
                    · rw [updateReflection_stored]
                      exact ⟨_, this.symm, by simp⟩

/-- Running the core twice on the same payloads: the second run finds the
marker equal to the recomputed dedup key and performs no persistence. -/
lemma responseCore_second (env : Env) (s : PyState) (req rd : Json) :
    (responseCore env (responseCore env s req rd).1 req rd).1.stored =
      (responseCore env s req rd).1.stored := by
  cases hconv : convIdOf req rd with
  | error e => simp [responseCore_convErr env s req rd e hconv]
  | ok cid =>
    cases hmark : markerMatches s.meta.processedConvId cid with
    | true => simp [responseCore_skip env s req rd cid hconv hmark]
    | false =>
      have h1 : (responseCore env s req rd).1.meta.processedConvId = some cid :=
        responseCore_sets_marker env s req rd cid hconv hmark
      have h2 : markerMatches (responseCore env s req rd).1.meta.processedConvId
          cid = true := by
        rw [h1]; simp [markerMatches]
      rw [responseCore_skip env (responseCore env s req rd).1 req rd cid hconv h2]

/-- A core run that performed a persistence call has set the marker. -/
lemma responseCore_stored_ne_marker (env : Env) (s : PyState) (req rd : Json)
    (h : (responseCore env s req rd).1.stored ≠ s.stored) :
    (responseCore env s req rd).1.meta.processedConvId.isSome = true := by
  cases hconv : convIdOf req rd with
  | error e =>
    rw [responseCore_convErr env s req rd e hconv] at h
    exact absurd rfl h
  | ok cid =>
    cases hmark : markerMatches s.meta.processedConvId cid with
    | true =>
      rw [responseCore_skip env s req rd cid hconv hmark] at h
      exact absurd rfl h
    | false =>
      rw [responseCore_sets_marker env s req rd cid hconv hmark]
      rfl

/-- The try-block preserves the stashed request payload. -/
lemma responseTry_claudeRequest (env : Env) (s : PyState) (req : Json)
    (fl : ResponseInput) :
    (responseTry env s req fl).1.meta.claudeRequest = s.meta.claudeRequest := by
  unfold responseTry
  split
  · rfl
  · rfl
  · exact responseCore_claudeRequest env s req _

/-- The try-block performs at most one persistence call. -/
lemma responseTry_stored_extend (env : Env) (s : PyState) (req : Json)
    (fl : ResponseInput) :
    ∃ ext, (responseTry env s req fl).1.stored = s.stored ++ ext ∧
      ext.length ≤ 1 := by
  unfold responseTry
  split
  · exact ⟨[], by simp⟩
  · exact ⟨[], by simp⟩
  · exact responseCore_stored_extend env s req _

/-- Running the try-block twice on the same flow performs no persistence
call in the second run. -/
lemma responseTry_second (env : Env) (s : PyState) (req : Json)
    (fl : ResponseInput) :
    (responseTry env (responseTry env s req fl).1 req fl).1.stored =
      (responseTry env s req fl).1.stored := by
  cases hg : getResponseData fl with
  | error e => simp [responseTry, hg]
  | ok o =>
    cases o with
    | none => simp [responseTry, hg]
    | some rd =>
      simp only [responseTry, hg]
      exact responseCore_second env s req rd

/-- A try-block run that performed a persistence call has set the marker. -/
lemma responseTry_stored_ne_marker (env : Env) (s : PyState) (req : Json)
    (fl : ResponseInput)
    (h : (responseTry env s req fl).1.stored ≠ s.stored) :
    (responseTry env s req fl).1.meta.processedConvId.isSome = true := by
  revert h
  unfold responseTry
  split
  · intro h; exact absurd rfl h
  · intro h; exact absurd rfl h
  · exact responseCore_stored_ne_marker env s req _

/-- The response hook always returns normally, and its result is the
try-block state (or the unchanged state on the early guards). -/
lemma response_cases (env : Env) (s : PyState) (fl : ResponseInput) :
    MemoryAddon.response env s fl = .ok s ∨
    (∃ req, s.meta.claudeRequest = some req ∧
      MemoryAddon.response env s fl = .ok (responseTry env s req fl).1) := by
  unfold MemoryAddon.response
  split
  · exact .inl rfl
  · split
    · exact .inl rfl
    · rename_i req heq
      split
      · exact .inl rfl
      · exact .inr ⟨req, heq, rfl⟩

/-- The response hook never mutates the stashed request payload. -/
lemma response_claudeRequest (env : Env) (s s1 : PyState) (fl : ResponseInput)
    (h : MemoryAddon.response env s fl = .ok s1) :
    s1.meta.claudeRequest = s.meta.claudeRequest := by
  rcases response_cases env s fl with hc | ⟨req, hcr, hc⟩ <;> rw [hc] at h <;>
    cases h
  · rfl
  · exact responseTry_claudeRequest env s req fl

/-- One response hook invocation performs at most one persistence call. -/
lemma response_stored_extend (env : Env) (s s1 : PyState) (fl : ResponseInput)
    (h : MemoryAddon.response env s fl = .ok s1) :
    ∃ ext, s1.stored = s.stored ++ ext ∧ ext.length ≤ 1 := by
  rcases response_cases env s fl with hc | ⟨req, hcr, hc⟩ <;> rw [hc] at h <;>
    cases h
  · exact ⟨[], by simp⟩
  · exact responseTry_stored_extend env s req fl

/-- Invoking the response hook again on the byte-identical flow performs
no persistence call. -/
lemma response_second_stored (env : Env) (s s1 s2 : PyState)
    (fl : ResponseInput)
    (h1 : MemoryAddon.response env s fl = .ok s1)
    (h2 : MemoryAddon.response env s1 fl = .ok s2) :
    s2.stored = s1.stored := by
  rcases response_cases env s fl with hc | ⟨req, hcr, hc⟩ <;> rw [hc] at h1 <;>
    cases h1
  · rcases response_cases env s fl with hc2 | ⟨req2, hcr2, hc2⟩ <;>
      rw [hc2] at h2 <;> cases h2
    · rfl
    · have h4 := hc.symm.trans hc2
      injection h4 with h4
      rw [← h4]
  · rcases response_cases env (responseTry env s req fl).1 fl with
      hc2 | ⟨req2, hcr2, hc2⟩ <;> rw [hc2] at h2 <;> cases h2
    · rfl
    · have hreq : req2 = req := by
        rw [responseTry_claudeRequest env s req fl, hcr] at hcr2
        exact (Option.some_inj.mp hcr2).symm
      rw [hreq]
      exact responseTry_second env s req fl

/-- A hook invocation that performed a persistence call has set the marker. -/
lemma response_stored_ne_marker (env : Env) (s s1 : PyState)
    (fl : ResponseInput)
    (h1 : MemoryAddon.response env s fl = .ok s1)
    (hgrow : s1.stored ≠ s.stored) :
    s1.meta.processedConvId.isSome = true := by
  rcases response_cases env s fl with hc | ⟨req, hcr, hc⟩ <;> rw [hc] at h1 <;>
    cases h1
  · exact absurd rfl hgrow
  · exact responseTry_stored_ne_marker env s req fl hgrow

/-- C1: invoking the response-capture path twice with byte-identical
request and response payloads for the same flow persists at most one
conversation turn: starting from an empty effect trace, the first
invocation performs at most one persistence call, and the second
invocation (which recomputes the same dedup key and finds the flow marker
equal to it) performs none. -/
theorem C1_response_idempotent (env : Env) (s s1 s2 : PyState)
    (fl : ResponseInput)
    (h0 : s.stored = [])
    (h1 : MemoryAddon.response env s fl = .ok s1)
    (h2 : MemoryAddon.response env s1 fl = .ok s2) :
    s2.stored = s1.stored ∧ s1.stored.length ≤ 1 := by
  refine ⟨response_second_stored env s s1 s2 fl h1 h2, ?_⟩
  rcases response_stored_extend env s s1 fl h1 with ⟨ext, he, hl⟩
  rw [he, h0]
  simpa using hl

theorem C1_witness :
    (hookOut envW (hookOut envW sW flW) flW).stored =
      (hookOut envW sW flW).stored ∧
    (hookOut envW sW flW).stored.length ≤ 1 :=
  C1_response_idempotent envW sW (hookOut envW sW flW)
    (hookOut envW (hookOut envW sW flW) flW) flW rfl rfl rfl

/-- C3: for every input (any request body, response body, content type or
flow state), neither the request hook nor the response hook raises an
exception to the mitmproxy host: every failure is caught inside the hook
and converted to a logged outcome, so both hooks always return normally. -/
theorem C3_hooks_never_raise (env : Env) (s : PyState) (flq : RequestInput)
    (fl : ResponseInput) :
    (∃ t, MemoryAddon.request s flq = .ok t) ∧
    (∃ t, MemoryAddon.response env s fl = .ok t) := by
  constructor
  · unfold MemoryAddon.request
    split
    · exact ⟨s, rfl⟩
    · split
      · split
        · exact ⟨_, rfl⟩
        · exact ⟨s, rfl⟩
      · exact ⟨s, rfl⟩
  · rcases response_cases env s fl with hc | ⟨req, _, hc⟩
    · exact ⟨s, hc⟩
    · exact ⟨_, hc⟩

/-- Initial state whose scripted remote `add` call fails. -/
def sWf : PyState :=
  { meta := { claudeRequest := some reqW, processedConvId := none },
    msgCount := 0, recent := [], stored := [], dispatched := [],
    remoteQueue := [.error "Connection error"], remoteCalls := 0 }

/-- C10: whenever a response hook run performed a persistence call (the
flow passed the completeness check), the processed marker was set to the
dedup key before the call, so it remains set even when the call raised;
a subsequent invocation of the hook with identical payloads therefore
performs no persistence call — a transiently failed store is never
retried for that flow. -/
theorem C10_marker_set_before_store (env : Env) (s s1 s2 : PyState)
    (fl : ResponseInput)
    (h1 : MemoryAddon.response env s fl = .ok s1)
    (hgrow : s1.stored ≠ s.stored)
    (h2 : MemoryAddon.response env s1 fl = .ok s2) :
    s1.meta.processedConvId.isSome = true ∧ s2.stored = s1.stored :=
  ⟨response_stored_ne_marker env s s1 fl h1 hgrow,
   response_second_stored env s s1 s2 fl h1 h2⟩

theorem C10_witness :
    (hookOut envW sWf flW).meta.processedConvId.isSome = true ∧
    (hookOut envW (hookOut envW sWf flW) flW).stored =
      (hookOut envW sWf flW).stored :=
  C10_marker_set_before_store envW sWf (hookOut envW sWf flW)
    (hookOut envW (hookOut envW sWf flW) flW) flW rfl
    (fun h => absurd (congrArg List.length h) (by decide)) rfl

/-- The messages of one concrete turn handed to the persistence client. -/
def msgsW : List Json :=
  [Json.obj [("role", .str "user"), ("content", .str "test message")]]

/-- A remote `add` endpoint that fails on the first two invocations and
succeeds from the third on (the repository's own retry test fixture). -/
def remoteFailTwiceW : Nat → AddParams → Except String Json :=
  fun k _ =>
    if k < 2 then .error "Connection error"
    else .ok (.obj [("id", .str "mem_123")])

/-- C2: the persistence operation is claimed to invoke the remote `add`
call up to 3 times with backoff; the code (memory_service.py lines
86-123) invokes it exactly once and re-raises the first failure, so with
a remote that fails twice and then succeeds, `add_memory` raises the
first error after exactly one invocation instead of succeeding after
three. -/
theorem C2_no_retry :
    MemoryService.add_memory remoteFailTwiceW envW.settings msgsW
      none none none none none = (.error "Connection error", 1) := rfl

/-- C7: the persistence client is claimed to classify remote failures by
case-insensitive substring match (Timeout / Connection / Validation /
Generic); the code (memory_service.py lines 108-123) performs no
classification at all — each failure message of the repository's own
classification test fixtures is re-raised verbatim. -/
theorem C7_no_classification :
    (MemoryService.add_memory (fun _ _ => .error "Request timeout occurred")
      envW.settings msgsW none none none none none).1 =
        .error "Request timeout occurred" ∧
    (MemoryService.add_memory (fun _ _ => .error "Connection failed to database")
      envW.settings msgsW none none none none none).1 =
        .error "Connection failed to database" ∧
    (MemoryService.add_memory (fun _ _ => .error "Network error occurred")
      envW.settings msgsW none none none none none).1 =
        .error "Network error occurred" ∧
    (MemoryService.add_memory (fun _ _ => .error "Invalid input provided")
      envW.settings msgsW none none none none none).1 =
        .error "Invalid input provided" ∧
    (MemoryService.add_memory (fun _ _ => .error "Bad request format")
      envW.settings msgsW none none none none none).1 =
        .error "Bad request format" ∧
    (MemoryService.add_memory (fun _ _ => .error "Some other error")
      envW.settings msgsW none none none none none).1 = .error "Some other error" :=
  ⟨rfl, rfl, rfl, rfl, rfl, rfl⟩

/-- One scheduler step below the threshold: window extended, counter
incremented, no dispatch. -/
lemma reflectStep_low (st : SchedState) (t : List Json)
    (h : st.count + t.length < REFLECTION_MESSAGE_THRESHOLD) :
    reflectStep st t =
      ({ recent := takeLast RECENT_MESSAGES_LIMIT (st.recent ++ t),
         count := st.count + t.length }, false) := by
  unfold reflectStep
  rw [if_neg (by omega)]

/-- One scheduler step reaching the threshold: window extended, counter
reset, one dispatch. -/
lemma reflectStep_high (st : SchedState) (t : List Json)
    (h : REFLECTION_MESSAGE_THRESHOLD ≤ st.count + t.length) :
    reflectStep st t =
      ({ recent := takeLast RECENT_MESSAGES_LIMIT (st.recent ++ t),
         count := 0 }, true) := by
  unfold reflectStep
  rw [if_pos (by omega)]

/-- Running the scheduler over turns that fall short of the threshold in
total dispatches nothing and accumulates the counter. -/
lemma runTurns_below (turns : List (List Json)) :
    ∀ st : SchedState,
      st.count + (turns.map List.length).sum < REFLECTION_MESSAGE_THRESHOLD →
      (runTurns st turns).2 = 0 ∧
      (runTurns st turns).1.count = st.count + (turns.map List.length).sum := by
  induction turns with
  | nil =>
    intro st h
    exact ⟨rfl, by simp [runTurns]⟩
  | cons t ts ih =>
    intro st h
    simp only [List.map_cons, List.sum_cons] at h
    have hstep := reflectStep_low st t (by omega)
    have hih := ih { recent := takeLast RECENT_MESSAGES_LIMIT (st.recent ++ t),
                     count := st.count + t.length } (by
      show st.count + t.length + (ts.map List.length).sum <
        REFLECTION_MESSAGE_THRESHOLD
      omega)
    simp only [runTurns, hstep]
    refine ⟨by simpa using hih.1, ?_⟩
    rw [hih.2]
    show st.count + t.length + (ts.map List.length).sum =
      st.count + (t.length + (ts.map List.length).sum)
    omega

/-- Running the scheduler over nonempty turns whose counts reach the
threshold exactly dispatches exactly once and resets the counter. -/
lemma runTurns_exact (turns : List (List Json)) :
    ∀ st : SchedState, (∀ t ∈ turns, t ≠ []) →
      st.count < REFLECTION_MESSAGE_THRESHOLD →
      st.count + (turns.map List.length).sum = REFLECTION_MESSAGE_THRESHOLD →
      (runTurns st turns).2 = 1 ∧ (runTurns st turns).1.count = 0 := by
  induction turns with
  | nil =>
    intro st _ hlt hsum
    simp only [List.map_nil, List.sum_nil, Nat.add_zero] at hsum
    exact absurd hsum (Nat.ne_of_lt hlt)
  | cons t ts ih =>
    intro st hne hlt hsum
    simp only [List.map_cons, List.sum_cons] at hsum
    by_cases hth : REFLECTION_MESSAGE_THRESHOLD ≤ st.count + t.length
    · have hts : (ts.map List.length).sum = 0 := by omega
      have htsnil : ts = [] := by
        cases ts with
        | nil => rfl
        | cons u us =>
          exfalso
          have hu : u ≠ [] := hne u (by simp)
          have : u.length ≠ 0 := fun hz => hu (List.eq_nil_of_length_eq_zero hz)
          simp only [List.map_cons, List.sum_cons] at hts
          omega
      subst htsnil
      have hstep := reflectStep_high st t hth
      simp [runTurns, hstep]
    · have hstep := reflectStep_low st t (by omega)
      have hih := ih { recent := takeLast RECENT_MESSAGES_LIMIT (st.recent ++ t),
                       count := st.count + t.length }
        (fun u hu => hne u (by simp [hu]))
        (by
          show st.count + t.length < REFLECTION_MESSAGE_THRESHOLD
          omega)
        (by
          show st.count + t.length + (ts.map List.length).sum =
            REFLECTION_MESSAGE_THRESHOLD
          omega)
      simp only [runTurns, hstep]
      exact ⟨by simpa using hih.1, by simpa using hih.2⟩

/-- C8: starting from a counter of 0, persisting a sequence of (nonempty)
turns whose message counts sum to exactly the threshold
`REFLECTION_MESSAGE_THRESHOLD = 5` dispatches exactly one background
reflection task and resets the counter to 0, while a sequence summing to
4 dispatches none. -/
theorem C8_reflection_trigger (turns : List (List Json)) (recent0 : List Json)
    (hne : ∀ t ∈ turns, t ≠ []) :
    ((turns.map List.length).sum = REFLECTION_MESSAGE_THRESHOLD →
      (runTurns { recent := recent0, count := 0 } turns).2 = 1 ∧
      (runTurns { recent := recent0, count := 0 } turns).1.count = 0) ∧
    ((turns.map List.length).sum = REFLECTION_MESSAGE_THRESHOLD - 1 →
      (runTurns { recent := recent0, count := 0 } turns).2 = 0) := by
  constructor
  · intro hsum
    refine runTurns_exact turns { recent := recent0, count := 0 } hne ?_ ?_
    · show 0 < REFLECTION_MESSAGE_THRESHOLD
      decide
    · show 0 + (turns.map List.length).sum = REFLECTION_MESSAGE_THRESHOLD
      rw [Nat.zero_add, hsum]
  · intro hsum
    refine (runTurns_below turns { recent := recent0, count := 0 } ?_).1
    show 0 + (turns.map List.length).sum < REFLECTION_MESSAGE_THRESHOLD
    rw [Nat.zero_add, hsum]
    decide

/-- A concrete sequence of three persisted turns with 2+2+1 messages. -/
def turnsC8 : List (List Json) :=
  [[Json.obj [("role", .str "user"), ("content", .str "a")],
    Json.obj [("role", .str "assistant"), ("content", .str "b")]],
   [Json.obj [("role", .str "user"), ("content", .str "c")],
    Json.obj [("role", .str "assistant"), ("content", .str "d")]],
   [Json.obj [("role", .str "user"), ("content", .str "e")]]]

theorem C8_witness :
    (runTurns { recent := [], count := 0 } turnsC8).2 = 1 ∧
    (runTurns { recent := [], count := 0 } turnsC8).1.count = 0 :=
  (C8_reflection_trigger turnsC8 [] (by simp [turnsC8])).1 rfl

/-!
## C5: reconstruction of one text block from its delta events
-/

/-- A `content_block_start` event opening a text block. -/
def startTextEvent : Json :=
  .obj [("type", .str "content_block_start"),
        ("content_block", .obj [("type", .str "text")])]

/-- A `content_block_delta` event carrying one `text_delta` fragment. -/
def deltaEvent (t : String) : Json :=
  .obj [("type", .str "content_block_delta"),
        ("delta", .obj [("type", .str "text_delta"), ("text", .str t)])]

/-- A `content_block_stop` event. -/
def stopEvent : Json :=
  .obj [("type", .str "content_block_stop")]

/-- The `content` list of a response payload (for statements). -/
def contentListOf (rd : Json) : List Json :=
  match rd with
  | .obj fs =>
    match lookupField fs "content" with
    | some (.arr xs) => xs
    | _ => []
  | _ => []

/-- The SSE loop distributes over list concatenation. -/
lemma runSse_append (xs ys : List SseLine) :
    ∀ st : SseState, runSse st (xs ++ ys) =
      (match runSse st xs with
       | .error e => .error e
       | .ok st2 => runSse st2 ys) := by
  induction xs with
  | nil => intro st; rfl
  | cons x xs ih =>
    intro st
    cases x with
    | other => simpa using ih st
    | data o =>
      cases o with
      | none => simpa using ih st
      | some j =>
        cases hp : processEvent j st with
        | error e => simp only [List.cons_append, runSse, hp]
        | ok st2 =>
          simp only [List.cons_append, runSse, hp]
          exact ih st2

/-- One delta event appends its fragment to the open text buffer. -/
lemma processEvent_delta (t : String) (st : SseState) :
    processEvent (deltaEvent t) st =
      .ok { st with currentText := st.currentText ++ t } := rfl

/-- A run of delta events appends the ordered concatenation of their
fragments to the open text buffer and changes nothing else. -/
lemma runSse_deltas (ts : List String) :
    ∀ st : SseState,
      runSse st (ts.map (fun t => SseLine.data (some (deltaEvent t)))) =
        .ok { st with
              currentText := List.foldl (fun r s => r ++ s) st.currentText ts } := by
  induction ts with
  | nil => intro st; rfl
  | cons t ts ih =>
    intro st
    simp only [List.map_cons, runSse, processEvent_delta]
    exact ih { st with currentText := st.currentText ++ t }

/-- C5: for an SSE stream consisting of a `content_block_start` of type
text, a sequence of `content_block_delta` events with
`delta.type == text_delta`, and a `content_block_stop`, the reconstructed
text equals the ordered concatenation of the delta fragments; when the
`content_block_stop` is absent, the block contributes no text to the
assembled content list. -/
theorem C5_delta_concatenation (ts : List String) :
    contentListOf (parse_sse_response
      { isEmpty := false,
        decoded := some (SseLine.data (some startTextEvent) ::
          (ts.map (fun t => SseLine.data (some (deltaEvent t))) ++
           [SseLine.data (some stopEvent)])),
        jsonParse := none }) =
      [Json.obj [("type", .str "text"), ("text", .str (String.join ts))]] ∧
    contentListOf (parse_sse_response
      { isEmpty := false,
        decoded := some (SseLine.data (some startTextEvent) ::
          ts.map (fun t => SseLine.data (some (deltaEvent t)))),
        jsonParse := none }) = [] := by
  have hstart : processEvent startTextEvent initSseState =
      .ok { content := [], model := .str "", usage := .obj [], ident := none,
            currentBlock := some (.obj [("type", .str "text")]),
            currentText := "" } := rfl
  have hdeltas := runSse_deltas ts
    { content := [], model := .str "", usage := .obj [], ident := none,
      currentBlock := some (.obj [("type", .str "text")]), currentText := "" }
  have hjoin : List.foldl (fun r s => r ++ s) "" ts = String.join ts := rfl
  constructor
  · show contentListOf
      (match runSse initSseState (SseLine.data (some startTextEvent) ::
          (ts.map (fun t => SseLine.data (some (deltaEvent t))) ++
           [SseLine.data (some stopEvent)])) with
       | .error _ => Json.obj []
       | .ok st => sseToJson st) = _
    simp only [runSse, hstart, runSse_append, hdeltas, hjoin]
    rfl
  · show contentListOf
      (match runSse initSseState (SseLine.data (some startTextEvent) ::
          ts.map (fun t => SseLine.data (some (deltaEvent t)))) with
       | .error _ => Json.obj []
       | .ok st => sseToJson st) = _
    simp only [runSse, hstart, hdeltas, hjoin]
    rfl

/-!
## C6: one-sided turns
-/

/-- A non-streaming response with an empty content list: the assistant
side yields nothing. -/
def rdE : Json :=
  .obj [("content", .arr []), ("model", .str "m1"), ("id", .str "r1")]

/-- The flow carrying `rdE`. -/
def flE : ResponseInput :=
  { prettyHost := "api.anthropic.com", path := "/v1/messages",
    contentType := "application/json",
    content := { isEmpty := false, decoded := none, jsonParse := some rdE } }

/-- C6 counterexample: the assistant side yields empty text after
extraction, yet the exchange still persists a (one-sided) turn — the
claim that either empty side suppresses the turn is false on the code. -/
theorem C6_counterexample :
    assistantMessages rdE = .ok [] ∧
    (hookOut envW sW flE).stored =
      [[Json.obj [("role", .str "user"), ("content", .str "Hello")]]] :=
  ⟨rfl, rfl⟩

/-- C6 (amended): the Turn Builder emits nothing if and only if both the
user side and the assistant side yield empty after extraction; a single
non-empty side produces a one-sided turn. -/
theorem C6_emit_iff_both_empty (req rd : Json) (msgs : List Json)
    (h : buildMessages req rd = .ok msgs) :
    msgs = [] ↔ (userMessages req = .ok [] ∧ assistantMessages rd = .ok []) := by
  unfold buildMessages at h
  cases hu : userMessages req with
  | error e => rw [hu] at h; cases h
  | ok u =>
    cases ha : assistantMessages rd with
    | error e => rw [hu, ha] at h; cases h
    | ok a =>
      rw [hu, ha] at h
      cases h
      constructor
      · intro hnil
        have hb := List.append_eq_nil.mp hnil
        constructor
        · rw [hb.1]
        · rw [hb.2]
      · rintro ⟨h1, h2⟩
        injection h1 with h1
        injection h2 with h2
        rw [h1, h2]
        rfl

theorem C6_witness :
    [Json.obj [("role", .str "user"), ("content", .str "Hello")]] = [] ↔
      (userMessages reqW = .ok [] ∧ assistantMessages rdE = .ok []) :=
  C6_emit_iff_both_empty reqW rdE _ rfl

/-!
## C4: the streaming completeness gate
-/

/-- Every assembled content entry has the exact shape the loop appends. -/
def IsTextBlockList (xs : List Json) : Prop :=
  ∀ b ∈ xs, ∃ t, b = Json.obj [("type", .str "text"), ("text", .str t)]

/-- One event either leaves the assembled content unchanged or appends
the current buffer as a text block. -/
lemma processEvent_content (j : Json) (st st2 : SseState)
    (h : processEvent j st = .ok st2) :
    st2.content = st.content ∨
    st2.content = st.content ++
      [Json.obj [("type", .str "text"), ("text", .str st.currentText)]] := by
  unfold processEvent at h
  split at h
  · cases h
  · split at h
    · split at h
      · cases h
      · split at h
        · cases h
        · split at h
          · cases h
          · split at h
            · cases h
            · cases h
              exact .inl rfl
    · split at h
      · split at h
        · cases h
        · split at h
          · cases h
          · split at h
            · cases h
              exact .inl rfl
            · cases h
              exact .inl rfl
      · split at h
        · split at h
          · cases h
          · split at h
            · cases h
            · split at h
              · split at h
                · cases h
                · split at h
                  · cases h
                  · cases h
                    exact .inl rfl
              · cases h
                exact .inl rfl
        · split at h
          · split at h
            · cases h
            · cases h
              split
              · exact .inr rfl
              · exact .inl rfl
          · cases h
            exact .inl rfl

/-- The loop invariant: assembled content entries are text blocks. -/
lemma runSse_blocks (lines : List SseLine) :
    ∀ st st2 : SseState, runSse st lines = .ok st2 →
      IsTextBlockList st.content → IsTextBlockList st2.content := by
  induction lines with
  | nil =>
    intro st st2 h hw
    cases h
    exact hw
  | cons x xs ih =>
    intro st st2 h hw
    cases x with
    | other => exact ih st st2 h hw
    | data o =>
      cases o with
      | none => exact ih st st2 h hw
      | some j =>
        simp only [runSse] at h
        cases hp : processEvent j st with
        | error e => rw [hp] at h; cases h
        | ok stm =>
          rw [hp] at h
          refine ih stm st2 h ?_
          rcases processEvent_content j st stm hp with hc | hc
          · rw [hc]; exact hw
          · rw [hc]
            intro b hb
            rcases List.mem_append.mp hb with hb | hb
            · exact hw b hb
            · rcases List.mem_singleton.mp hb with rfl
              exact ⟨st.currentText, rfl⟩

/-- The SSE reconstruction either fails to an empty dict or produces the
serialized loop state with well-shaped content. -/
lemma parse_sse_shape (b : RawBytes) :
    parse_sse_response b = Json.obj [] ∨
    ∃ st : SseState, parse_sse_response b = sseToJson st ∧
      IsTextBlockList st.content := by
  unfold parse_sse_response
  split
  · exact .inl rfl
  · split
    · exact .inl rfl
    · split
      · exact .inl rfl
      · rename_i st hrun
        exact .inr ⟨st, rfl, runSse_blocks _ initSseState st hrun (by
          intro b hb
          cases hb)⟩

/-- The condition the streaming gate actually tests: the content list is
non-empty and its first block has truthy text. -/
def firstBlockUsable (rd : Json) : Bool :=
  match rd with
  | .obj fs =>
    match lookupField fs "content" with
    | some (.arr (b :: _)) =>
      (match b with
       | .obj bfs =>
         (match lookupField bfs "text" with
          | some v => truthy v
          | none => false)
       | _ => false)
    | _ => false
  | _ => false

/-- On a serialized loop state with well-shaped content the gate never
raises and computes exactly the first-block condition. -/
lemma streamGate_content (cs : List Json) (tail : List (String × Json))
    (hw : IsTextBlockList cs) :
    streamGate (.obj (("content", .arr cs) :: tail)) =
      .ok (firstBlockUsable (.obj (("content", .arr cs) :: tail))) := by
  cases cs with
  | nil => rfl
  | cons b rest =>
    obtain ⟨t, rfl⟩ := hw b (by simp)
    rfl

/-- On any SSE reconstruction result the gate never raises and computes
exactly the first-block condition. -/
lemma streamGate_parse (b : RawBytes) :
    streamGate (parse_sse_response b) =
      .ok (firstBlockUsable (parse_sse_response b)) := by
  rcases parse_sse_shape b with h | ⟨st, h, hw⟩
  · rw [h]; rfl
  · rw [h]
    exact streamGate_content st.content (sseTailFields st) hw

/-- A reconstruction passing the first-block condition is truthy. -/
lemma parse_truthy_of_usable (b : RawBytes)
    (h : firstBlockUsable (parse_sse_response b) = true) :
    truthy (parse_sse_response b) = true := by
  rcases parse_sse_shape b with hs | ⟨st, hs, _⟩
  · rw [hs] at h
    cases h
  · rw [hs]
    rfl

/-- The property the claim states: the reconstruction contains at least
one non-empty text block (anywhere in the content list). -/
def anyNonemptyTextBlock (rd : Json) : Bool :=
  (contentListOf rd).any fun b =>
    match b with
    | .obj bfs =>
      (match lookupField bfs "type" with
       | some v => jStrEq v "text"
       | none => false) &&
      (match lookupField bfs "text" with
       | some v => truthy v
       | none => false)
    | _ => false

/-- C4 (amended): a streamed response is treated as usable (processing
proceeds past the completeness check) if and only if its reconstructed
content list is non-empty and its FIRST block has non-empty text; when
that first-block condition fails, the response handler returns without
persistence and leaves the state unchanged. -/
theorem C4_streaming_gate (env : Env) (s : PyState) (req : Json)
    (fl : ResponseInput)
    (hstream : containsSub "text/event-stream" fl.contentType = true) :
    (getResponseData fl = .ok (some (parse_sse_response fl.content)) ↔
      firstBlockUsable (parse_sse_response fl.content) = true) ∧
    (firstBlockUsable (parse_sse_response fl.content) = false →
      getResponseData fl = .ok none ∧ responseTry env s req fl = (s, .ok ())) := by
  have hg := streamGate_parse fl.content
  cases hfb : firstBlockUsable (parse_sse_response fl.content) with
  | true =>
    have ht := parse_truthy_of_usable fl.content hfb
    have hval : getResponseData fl = .ok (some (parse_sse_response fl.content)) := by
      unfold getResponseData
      simp [hstream, hg, hfb, ht]
    refine ⟨iff_of_true hval rfl, fun hf => ?_⟩
    cases hf
  | false =>
    have hnone : getResponseData fl = .ok none := by
      unfold getResponseData
      simp [hstream, hg, hfb]
    constructor
    · apply iff_of_false
      · intro hcontra
        rw [hnone] at hcontra
        injection hcontra with hcontra
        cases hcontra
      · simp
    · intro _
      refine ⟨hnone, ?_⟩
      unfold responseTry
      rw [hnone]

/-- A stream whose first text block is empty and whose second is `hi`. -/
def streamX : RawBytes :=
  { isEmpty := false,
    decoded := some [
      .data (some (.obj [("type", .str "message_start"),
        ("message", .obj [("model", .str "m1"), ("id", .str "r1"),
                          ("usage", .obj [])])])),
      .data (some startTextEvent),
      .data (some stopEvent),
      .data (some startTextEvent),
      .data (some (deltaEvent "hi")),
      .data (some stopEvent)],
    jsonParse := none }

/-- The streaming flow carrying `streamX`. -/
def flX : ResponseInput :=
  { prettyHost := "api.anthropic.com", path := "/v1/messages",
    contentType := "text/event-stream", content := streamX }

/-- C4 counterexample: this reconstruction contains a non-empty text
block, yet the handler treats the stream as not complete, performs no
persistence action and leaves the state unchanged — usability is not
equivalent to containing at least one non-empty text block. -/
theorem C4_counterexample :
    anyNonemptyTextBlock (parse_sse_response flX.content) = true ∧
    getResponseData flX = .ok none ∧
    responseTry envW sW reqW flX = (sW, .ok ()) :=
  ⟨rfl, rfl, rfl⟩

/-- The spec section 8 streaming scenario: `Hel` + `lo` frames. -/
def streamW : RawBytes :=
  { isEmpty := false,
    decoded := some [
      .data (some (.obj [("type", .str "message_start"),
        ("message", .obj [("model", .str "m2"), ("id", .str "r2"),
                          ("usage", .obj [("input_tokens", .num 1)])])])),
      .data (some startTextEvent),
      .data (some (deltaEvent "Hel")),
      .data (some (deltaEvent "lo")),
      .data (some stopEvent),
      .other],
    jsonParse := none }

/-- The streaming flow carrying `streamW`. -/
def flSW : ResponseInput :=
  { prettyHost := "api.anthropic.com", path := "/v1/messages",
    contentType := "text/event-stream", content := streamW }

theorem C4_witness :
    (getResponseData flSW = .ok (some (parse_sse_response flSW.content)) ↔
      firstBlockUsable (parse_sse_response flSW.content) = true) ∧
    (firstBlockUsable (parse_sse_response flSW.content) = false →
      getResponseData flSW = .ok none ∧
      responseTry envW sW reqW flSW = (sW, .ok ())) :=
  C4_streaming_gate envW sW reqW flSW rfl

/-!
## C9: streaming vs non-streaming observational equivalence
-/

lemma pyGetD_obj (fs : List (String × Json)) (k : String) (d : Json) :
    pyGetD (.obj fs) k d = .ok ((lookupField fs k).getD d) := by
  show (match lookupField fs k with
        | some v => (Except.ok v : Except String Json)
        | none => Except.ok d) = Except.ok ((lookupField fs k).getD d)
  cases lookupField fs k <;> rfl

lemma truthy_obj_of_lookup (fs : List (String × Json)) (k : String) (c : Json)
    (h : lookupField fs k = some c) : truthy (.obj fs) = true := by
  cases fs with
  | nil => cases h
  | cons f fs => rfl

/-- A passing gate on a dict payload exhibits a truthy content entry. -/
lemma streamGate_obj_lookup (fs : List (String × Json))
    (h : streamGate (.obj fs) = .ok true) :
    ∃ c, lookupField fs "content" = some c ∧ truthy c = true := by
  unfold streamGate pyGet1 at h
  rw [pyGetD_obj] at h
  cases hlk : lookupField fs "content" with
  | none =>
    rw [hlk] at h
    simp [truthy] at h
  | some c =>
    rw [hlk] at h
    cases htc : truthy c with
    | false => simp [htc] at h
    | true => exact ⟨c, rfl, htc⟩

lemma convIdOf_congr (req : Json) (fsr fsd : List (String × Json))
    (hi : lookupField fsd "id" = lookupField fsr "id") :
    convIdOf req (.obj fsd) = convIdOf req (.obj fsr) := by
  unfold convIdOf
  rw [pyGetD_obj, pyGetD_obj, hi]

lemma modelStrOf_congr (fsr fsd : List (String × Json))
    (hm : lookupField fsd "model" = lookupField fsr "model") :
    modelStrOf (.obj fsd) = modelStrOf (.obj fsr) := by
  unfold modelStrOf
  rw [pyGetD_obj, pyGetD_obj, hm]

lemma assistantMessages_congr (fsr fsd : List (String × Json))
    (hc : lookupField fsd "content" = lookupField fsr "content") :
    assistantMessages (.obj fsd) = assistantMessages (.obj fsr) := by
  simp only [assistantMessages, pyHasKey, pyGetItem]
  rw [hc]

lemma buildMessages_congr (req : Json) (fsr fsd : List (String × Json))
    (hc : lookupField fsd "content" = lookupField fsr "content") :
    buildMessages req (.obj fsd) = buildMessages req (.obj fsr) := by
  unfold buildMessages
  rw [assistantMessages_congr fsr fsd hc]

lemma metadataOf_obj (fs : List (String × Json)) (rid : String) :
    ∃ md, metadataOf (.obj fs) rid = .ok md := by
  unfold metadataOf
  rw [pyGetD_obj, pyGetD_obj]
  exact ⟨_, rfl⟩

/-- Two dict payloads agreeing on `model`, `id` and `content` drive the
core processing to identical results (the `created`-derived metadata is
not observable in the state). -/
lemma responseCore_congr (env : Env) (s : PyState) (req : Json)
    (fsr fsd : List (String × Json))
    (hm : lookupField fsd "model" = lookupField fsr "model")
    (hi : lookupField fsd "id" = lookupField fsr "id")
    (hc : lookupField fsd "content" = lookupField fsr "content") :
    responseCore env s req (.obj fsd) = responseCore env s req (.obj fsr) := by
  unfold responseCore
  rw [convIdOf_congr req fsr fsd hi, modelStrOf_congr fsr fsd hm,
      buildMessages_congr req fsr fsd hc]
  split
  · rfl
  · split
    · rfl
    · split
      · rfl
      · split
        · rfl
        · split
          · rfl
          · split
            · rfl
            · split
              · rfl
              · rename_i rid heq
                obtain ⟨md1, hmd1⟩ := metadataOf_obj fsd rid
                obtain ⟨md2, hmd2⟩ := metadataOf_obj fsr rid
                rw [hmd1, hmd2]
                congr 1

/-- C9 (amended): a streamed response passing the completeness gate and a
non-streaming JSON document that agrees with the reconstruction on
`model`, `id` and the content blocks drive the response processing to the
same persisted messages — the two delivery paths are observationally
equivalent once the stream is complete and its first text block is
non-empty. -/
theorem C9_stream_doc_equivalence (env : Env) (s : PyState) (req : Json)
    (flS flD : ResponseInput) (fsr fsd : List (String × Json))
    (hs : containsSub "text/event-stream" flS.contentType = true)
    (hd : containsSub "text/event-stream" flD.contentType = false)
    (hr : parse_sse_response flS.content = .obj fsr)
    (hj : flD.content.jsonParse = some (.obj fsd))
    (hm : lookupField fsd "model" = lookupField fsr "model")
    (hi : lookupField fsd "id" = lookupField fsr "id")
    (hc : lookupField fsd "content" = lookupField fsr "content")
    (hgate : streamGate (.obj fsr) = .ok true) :
    (responseTry env s req flS).1.stored = (responseTry env s req flD).1.stored := by
  obtain ⟨c, hlkr, htc⟩ := streamGate_obj_lookup fsr hgate
  have htr : truthy (.obj fsr) = true := truthy_obj_of_lookup fsr "content" c hlkr
  have htd : truthy (.obj fsd) = true :=
    truthy_obj_of_lookup fsd "content" c (hc.trans hlkr)
  have hgs : getResponseData flS = .ok (some (.obj fsr)) := by
    unfold getResponseData
    rw [hr]
    simp [hs, hgate, htr]
  have hgd : getResponseData flD = .ok (some (.obj fsd)) := by
    unfold getResponseData
    rw [hj]
    simp [hd, htd]
  unfold responseTry
  rw [hgs, hgd]
  show (responseCore env s req (.obj fsr)).1.stored =
    (responseCore env s req (.obj fsd)).1.stored
  rw [responseCore_congr env s req fsr fsd hm hi hc]

/-- The reconstruction of `streamX` as a single JSON document (same
model, id and text blocks). -/
def docX : Json :=
  .obj [("content", .arr [.obj [("type", .str "text"), ("text", .str "")],
                          .obj [("type", .str "text"), ("text", .str "hi")]]),
        ("model", .str "m1"), ("usage", .obj []), ("type", .str "message"),
        ("id", .str "r1")]

/-- The non-streaming flow delivering `docX`. -/
def flDX : ResponseInput :=
  { prettyHost := "api.anthropic.com", path := "/v1/messages",
    contentType := "application/json",
    content := { isEmpty := false, decoded := none, jsonParse := some docX } }

/-- C9 counterexample: the stream `streamX` reconstructs to exactly
`docX`, yet processing the stream persists nothing (the first text block
is empty, so the completeness gate rejects it) while processing the same
logical content as a single JSON document persists a turn — the two
delivery paths are not observationally equivalent in general. -/
theorem C9_counterexample :
    parse_sse_response flX.content = docX ∧
    (hookOut envW sW flX).stored = [] ∧
    (hookOut envW sW flDX).stored =
      [[Json.obj [("role", .str "user"), ("content", .str "Hello")],
        Json.obj [("role", .str "assistant"), ("content", .str " hi")]]] :=
  ⟨rfl, rfl, rfl⟩

/-- The object fields reconstructed from `streamW`. -/
def fsrW : List (String × Json) :=
  [("content", .arr [.obj [("type", .str "text"), ("text", .str "Hello")]]),
   ("model", .str "m2"), ("usage", .obj [("input_tokens", .num 1)]),
   ("type", .str "message"), ("id", .str "r2")]

/-- A non-streaming document agreeing with the `streamW` reconstruction
on `model`, `id` and `content` but differing elsewhere. -/
def fsdW : List (String × Json) :=
  [("content", .arr [.obj [("type", .str "text"), ("text", .str "Hello")]]),
   ("model", .str "m2"), ("id", .str "r2"), ("created", .str "12345")]

/-- The non-streaming flow delivering that document. -/
def flDW : ResponseInput :=
  { prettyHost := "api.anthropic.com", path := "/v1/messages",
    contentType := "application/json",
    content := { isEmpty := false, decoded := none,
                 jsonParse := some (.obj fsdW) } }

theorem C9_witness :
    (responseTry envW sW reqW flSW).1.stored =
      (responseTry envW sW reqW flDW).1.stored :=
  C9_stream_doc_equivalence envW sW reqW flSW flDW fsrW fsdW
    rfl rfl rfl rfl rfl rfl rfl rfl
